import Mathlib

/-!
Verification development for the DART disclosure bot (`src/main.py`).

The program is a single Python script.  We shallowly embed its functions:

* Time is a Unix timestamp in seconds, modelled as `Int`; the program only
  ever looks at the fixed-offset UTC+9 ("KST") civil reading of the clock,
  which is pure arithmetic on the timestamp (UTC+9 has no DST).
* The persisted seen-set file is a `FileState`: absent, corrupt (unparsable
  JSON), or a stored list of receipt-number strings.
* The two network calls are modelled by explicit outcome values
  (`FetchOutcome` for the registry GET, `DeliverOutcome` for the chat POST);
  fallible Python code becomes `Except Err _`.
* `check_new_disclosures` is embedded as a pure function from the timestamp,
  the fetch outcome, the file state and the per-message delivery outcomes to
  an `Except Err CycleResult`, whose fields record the externally observable
  effects of the cycle (whether a fetch was issued, whether the store was
  read, the messages passed to the sender, and the saved store if any).
-/

/-- `KST_OFFSET` : the fixed UTC+9 offset in seconds (`KST = timezone(timedelta(hours=9))`). -/
def KST_OFFSET : Int := 9 * 3600

/-- Embeds `get_korean_time()`: the KST civil clock reading of Unix timestamp
`t`, represented as seconds since the Unix epoch shifted by the fixed +9h
offset.  Weekday and hour-of-day below are read off this shifted value. -/
def get_korean_time (t : Int) : Int := t + KST_OFFSET

/-- Day index (days since 1970-01-01) of the KST civil reading, floor division. -/
def kstDayIndex (t : Int) : Int := Int.fdiv (get_korean_time t) 86400

/-- Embeds `datetime.weekday()` on the KST time: Monday = 0 … Sunday = 6.
1970-01-01 was a Thursday, i.e. weekday 3. -/
def kstWeekday (t : Int) : Int := Int.emod (kstDayIndex t + 3) 7

/-- Embeds `.hour` on the KST time: hour of day, 0–23. -/
def kstHour (t : Int) : Int := Int.fdiv (Int.emod (get_korean_time t) 86400) 3600

/-- Embeds `is_business_day()`: `weekday < 5`. -/
def is_business_day (t : Int) : Bool := kstWeekday t < 5

/-- Embeds `is_business_hours()`: returns `False` when not a business day,
otherwise `8 <= hour <= 21`. -/
def is_business_hours (t : Int) : Bool :=
  if ¬ is_business_day t then false
  else decide (8 ≤ kstHour t ∧ kstHour t ≤ 21)

/-- Embeds `should_check_disclosures()`: two early-return guards, then `True`. -/
def should_check_disclosures (t : Int) : Bool :=
  if ¬ is_business_day t then false
  else if ¬ is_business_hours t then false
  else true

/-- Errors that a cycle can raise (uncaught Python exceptions). -/
inductive Err where
  | storeCorrupt : Err
deriving DecidableEq, Repr

/-- State of the `seen_disclosures.json` file on disk. -/
inductive FileState where
  | absent : FileState
  | corrupt : FileState
  | stored : List String → FileState
deriving DecidableEq, Repr

/-- Embeds `load_seen_disclosures()`: `open` + `json.load` with a handler for
`FileNotFoundError` only.  A missing file yields the empty set; a file whose
contents do not parse raises (`json.JSONDecodeError` is not caught); a
well-formed file yields its stored receipt numbers (set semantics: only
membership is ever consulted). -/
def load_seen_disclosures (fs : FileState) : Except Err (List String) :=
  match fs with
  | .absent => .ok []
  | .corrupt => .error .storeCorrupt
  | .stored l => .ok l

/-- Embeds `save_seen_disclosures(seen_set)`: the file is fully rewritten with
the given receipt numbers (`json.dump(list(seen_set), f)`). -/
def save_seen_disclosures (seen : List String) : FileState := .stored seen

/-- One registry entry, with exactly the fields `main.py` reads:
`corp_name`, `report_nm`, `rcept_dt`, `rcept_no`. -/
structure Disclosure where
  corp_name : String
  report_nm : String
  rcept_dt : String
  rcept_no : String
deriving DecidableEq, Repr

/-- Parsed JSON body of the registry response: a `status` string, a `message`
string and the `list` of records (present on status `"000"`). -/
structure ApiResponse where
  status : String
  message : String
  list : List Disclosure
deriving DecidableEq, Repr

/-- Outcome of the `requests.get` call inside `get_dart_disclosures`:
either the request raised (timeout / transport failure), or an HTTP response
with a status code and a parsed JSON body came back. -/
inductive FetchOutcome where
  | transportError : FetchOutcome
  | http : Nat → ApiResponse → FetchOutcome
deriving DecidableEq, Repr

/-- Embeds `get_dart_disclosures()`: on HTTP 200 with registry status `"000"`
it returns `data['list']`; registry status `"013"` returns `[]`; every other
registry status, every non-200 HTTP status, and every raised exception is
caught, logged, and also returns `[]`.  The return type is a plain record
list: no failure information ever reaches the caller. -/
def get_dart_disclosures (f : FetchOutcome) : List Disclosure :=
  match f with
  | .transportError => []
  | .http code data =>
      if code = 200 then
        if data.status = "000" then data.list
        else if data.status = "013" then []
        else []
      else []

/-- Outcome of the `requests.post` call inside `send_telegram_message`. -/
inductive DeliverOutcome where
  | delivered : DeliverOutcome
  | httpError : Nat → DeliverOutcome
  | transportError : DeliverOutcome
deriving DecidableEq, Repr

/-- What `send_telegram_message` logs about a delivery attempt. -/
inductive SendLog where
  | success : SendLog
  | failedStatus : Nat → SendLog
  | caughtException : SendLog
deriving DecidableEq, Repr

/-- Embeds `send_telegram_message(message)`: posts the message and inspects
the result; a 200 response logs success, any other status logs failure, and
a raised exception is caught by the bare `except`.  The function never
propagates an error to its caller. -/
def send_telegram_message (o : DeliverOutcome) : Except Err SendLog :=
  match o with
  | .delivered => .ok .success
  | .httpError c => if c = 200 then .ok .success else .ok (.failedStatus c)
  | .transportError => .ok .caughtException

/-- Civil date `(year, month, day)` of a day count relative to 1970-01-01
in the proleptic Gregorian calendar (standard days-to-civil algorithm). -/
def civilFromDays (z₀ : Int) : Int × Int × Int :=
  let z := z₀ + 719468
  let era := Int.fdiv z 146097
  let doe := z - era * 146097
  let yoe := Int.fdiv (doe - Int.fdiv doe 1460 + Int.fdiv doe 36524 - Int.fdiv doe 146096) 365
  let y := yoe + era * 400
  let doy := doe - (365 * yoe + Int.fdiv yoe 4 - Int.fdiv yoe 100)
  let mp := Int.fdiv (5 * doy + 2) 153
  let d := doy - Int.fdiv (153 * mp + 2) 5 + 1
  let m := mp + (if mp < 10 then 3 else -9)
  (y + (if m ≤ 2 then 1 else 0), m, d)

/-- Zero-pad a nonnegative integer to two digits (`%m`, `%d`, `%H`, `%M`, `%S`). -/
def pad2 (n : Int) : String := if n < 10 then "0" ++ toString n else toString n

/-- Zero-pad a nonnegative integer to four digits (`%Y`). -/
def pad4 (n : Int) : String :=
  if n < 10 then "000" ++ toString n
  else if n < 100 then "00" ++ toString n
  else if n < 1000 then "0" ++ toString n
  else toString n

/-- Embeds `korean_time.strftime('%Y-%m-%d %H:%M:%S')`: the KST civil
timestamp rendered to second precision. -/
def kst_strftime (t : Int) : String :=
  let k := get_korean_time t
  let secs := Int.emod k 86400
  match civilFromDays (Int.fdiv k 86400) with
  | (y, m, d) =>
      pad4 y ++ "-" ++ pad2 m ++ "-" ++ pad2 d ++ " " ++
      pad2 (Int.fdiv secs 3600) ++ ":" ++
      pad2 (Int.fdiv (Int.emod secs 3600) 60) ++ ":" ++
      pad2 (Int.emod secs 60)

/-- Embeds the `dart_link` built inside `format_disclosure_message`. -/
def dart_link (receipt_no : String) : String :=
  "https://dart.fss.or.kr/dsaf001/main.do?rcpNo=" ++ receipt_no

/-- Embeds the `formatted_date` slice inside `format_disclosure_message`:
`date[:4] + '-' + date[4:6] + '-' + date[6:8]` (Python string slicing). -/
def formatted_date (date : String) : String :=
  String.mk (date.data.take 4) ++ "-" ++
  String.mk ((date.data.drop 4).take 2) ++ "-" ++
  String.mk ((date.data.drop 6).take 2)

/-- Embeds `format_disclosure_message(disclosure)` at KST time `t`: the exact
f-string of `main.py` (banner, company, title, reformatted date, deep link,
KST timestamp). -/
def format_disclosure_message (dis : Disclosure) (t : Int) : String :=
  "🔔 <b>새로운 공시 발표!</b>\n\n📈 <b>" ++ dis.corp_name ++
  "</b>\n📋 " ++ dis.report_nm ++
  "\n📅 " ++ formatted_date dis.rcept_dt ++
  "\n🔗 <a href=\"" ++ dart_link dis.rcept_no ++ "\">공시 내용 보기</a>\n\n⏰ " ++
  kst_strftime t ++ " (KST)"

/-- Result of the per-record loop in `check_new_disclosures`: the updated
seen-set, the messages handed to `send_telegram_message` (in delivery
order), and `new_count`. -/
structure LoopResult where
  seen : List String
  sent : List String
  newCount : Nat
deriving DecidableEq, Repr

/-- Embeds the `for disclosure in current_disclosures:` loop of
`check_new_disclosures`: each record whose `rcept_no` is not in the seen-set
is formatted, sent (the send swallows its own errors), then its receipt
number is added to the in-memory set and `new_count` is incremented. -/
def processRecords (t : Int) (ds : List Disclosure) (seen : List String)
    (dlv : String → DeliverOutcome) : Except Err LoopResult :=
  match ds with
  | [] => .ok ⟨seen, [], 0⟩
  | d :: rest =>
      if seen.contains d.rcept_no then processRecords t rest seen dlv
      else do
        let msg := format_disclosure_message d t
        let _ ← send_telegram_message (dlv msg)
        let r ← processRecords t rest (d.rcept_no :: seen) dlv
        .ok ⟨r.seen, msg :: r.sent, r.newCount + 1⟩

/-- Externally observable effects of one invocation of
`check_new_disclosures`: whether the registry was queried, whether the store
file was read, the messages handed to the sender, the store contents written
by `save_seen_disclosures` (if it was called), `new_count`, and the file
state after the cycle. -/
structure CycleResult where
  didFetch : Bool
  didLoad : Bool
  sent : List String
  saved : Option (List String)
  newCount : Nat
  finalFile : FileState
deriving DecidableEq, Repr

/-- Embeds `check_new_disclosures()` at timestamp `t`, with the registry
response `f`, the store file state `fs` and the delivery outcome of each
posted message given by `dlv`.  Control flow follows `main.py` line by line:
the time-policy gate returns early; an empty `current_disclosures` (empty
success, registry status `"013"`, any other registry status, HTTP error, or
transport failure) returns early before the store is touched; otherwise the
store is loaded (a corrupt file raises out of the function), the loop runs,
and the updated set is saved. -/
def check_new_disclosures (t : Int) (f : FetchOutcome) (fs : FileState)
    (dlv : String → DeliverOutcome) : Except Err CycleResult :=
  if ¬ should_check_disclosures t then
    .ok ⟨false, false, [], none, 0, fs⟩
  else
    let current := get_dart_disclosures f
    if current.isEmpty then
      .ok ⟨true, false, [], none, 0, fs⟩
    else do
      let seen ← load_seen_disclosures fs
      let r ← processRecords t current seen dlv
      .ok ⟨true, true, r.sent, some r.seen, r.newCount, save_seen_disclosures r.seen⟩

/-- Embeds one wake-up of the `while True:` scheduler loop at a tick where
`check_new_disclosures` is due: `schedule.run_pending()` calls the job
directly, and neither the `schedule` library nor the loop body catches
exceptions, so an error raised by the cycle propagates out of
`run_pending` and past `time.sleep`, terminating the process.  The loop
reaches its next iteration exactly when the cycle did not raise. -/
def scheduler_tick (t : Int) (f : FetchOutcome) (fs : FileState)
    (dlv : String → DeliverOutcome) : Except Err CycleResult :=
  check_new_disclosures t f fs dlv

/-- Whether the scheduler loop survives the tick and keeps ticking. -/
def scheduler_survives (t : Int) (f : FetchOutcome) (fs : FileState)
    (dlv : String → DeliverOutcome) : Bool :=
  (scheduler_tick t f fs dlv).isOk

/-- A concrete sample record (used by witnesses and counterexamples). -/
def sampleDisclosure : Disclosure :=
  ⟨"삼성전자", "반기보고서 (2024.06)", "20240815", "20240815000123"⟩

/-- Delivery environment in which every post succeeds. -/
def alwaysDelivered : String → DeliverOutcome := fun _ => .delivered

/-- Receipt numbers recorded in a store file state (empty when the file is
absent or corrupt). -/
def storedReceipts : FileState → List String
  | .stored l => l
  | _ => []

/-- `small` occurs contiguously inside `big` (substring at the level of the
character data). -/
def containsSub (big small : String) : Prop :=
  ∃ pre post : List Char, big.data = pre ++ small.data ++ post

theorem except_bind_ok {α β : Type} (a : α) (f : α → Except Err β) :
    (Except.ok a : Except Err α) >>= f = f a := rfl

theorem except_bind_error {α β : Type} (e : Err) (f : α → Except Err β) :
    (Except.error e : Except Err α) >>= f = .error e := rfl

theorem send_telegram_message_isOk (o : DeliverOutcome) :
    ∃ l, send_telegram_message o = .ok l := by
  cases o with
  | delivered => exact ⟨.success, rfl⟩
  | httpError c =>
      by_cases h : c = 200
      · exact ⟨.success, by simp [send_telegram_message, h]⟩
      · exact ⟨.failedStatus c, by simp [send_telegram_message, h]⟩
  | transportError => exact ⟨.caughtException, rfl⟩

theorem processRecords_total (t : Int) (ds : List Disclosure) (seen : List String)
    (dlv : String → DeliverOutcome) : ∃ r, processRecords t ds seen dlv = .ok r := by
  induction ds generalizing seen with
  | nil => exact ⟨⟨seen, [], 0⟩, rfl⟩
  | cons d rest ih =>
      by_cases hc : d.rcept_no ∈ seen
      · simpa [processRecords, hc] using ih seen
      · obtain ⟨l, hl⟩ := send_telegram_message_isOk (dlv (format_disclosure_message d t))
        obtain ⟨r, hr⟩ := ih (d.rcept_no :: seen)
        refine ⟨⟨r.seen, format_disclosure_message d t :: r.sent, r.newCount + 1⟩, ?_⟩
        simp [processRecords, hc, hl, hr, except_bind_ok]

theorem processRecords_cons_old (t : Int) (d : Disclosure) (rest : List Disclosure)
    (seen : List String) (dlv : String → DeliverOutcome) (hc : d.rcept_no ∈ seen) :
    processRecords t (d :: rest) seen dlv = processRecords t rest seen dlv := by
  simp [processRecords, hc]

theorem processRecords_cons_new (t : Int) (d : Disclosure) (rest : List Disclosure)
    (seen : List String) (dlv : String → DeliverOutcome) (hc : d.rcept_no ∉ seen) :
    processRecords t (d :: rest) seen dlv =
      (processRecords t rest (d.rcept_no :: seen) dlv).map
        (fun r => ⟨r.seen, format_disclosure_message d t :: r.sent, r.newCount + 1⟩) := by
  obtain ⟨l, hl⟩ := send_telegram_message_isOk (dlv (format_disclosure_message d t))
  obtain ⟨r', hr'⟩ := processRecords_total t rest (d.rcept_no :: seen) dlv
  simp [processRecords, hc, hl, hr', except_bind_ok, Except.map]

theorem processRecords_mem_mono (t : Int) (ds : List Disclosure) (seen : List String)
    (dlv : String → DeliverOutcome) (r : LoopResult)
    (h : processRecords t ds seen dlv = .ok r) :
    ∀ x, x ∈ seen → x ∈ r.seen := by
  induction ds generalizing seen r with
  | nil =>
      simp only [processRecords] at h
      injection h with h
      subst h
      exact fun x hx => hx
  | cons d rest ih =>
      by_cases hc : d.rcept_no ∈ seen
      · rw [processRecords_cons_old t d rest seen dlv hc] at h
        exact ih seen r h
      · rw [processRecords_cons_new t d rest seen dlv hc] at h
        obtain ⟨r', hr'⟩ := processRecords_total t rest (d.rcept_no :: seen) dlv
        rw [hr'] at h
        simp only [Except.map] at h
        injection h with h
        subst h
        intro x hx
        simpa using ih (d.rcept_no :: seen) r' hr' x (by simp [hx])

theorem processRecords_covers (t : Int) (ds : List Disclosure) (seen : List String)
    (dlv : String → DeliverOutcome) (r : LoopResult)
    (h : processRecords t ds seen dlv = .ok r) :
    ∀ d ∈ ds, d.rcept_no ∈ r.seen := by
  induction ds generalizing seen r with
  | nil => simp
  | cons d rest ih =>
      intro e he
      by_cases hc : d.rcept_no ∈ seen
      · rw [processRecords_cons_old t d rest seen dlv hc] at h
        rcases List.mem_cons.mp he with h1 | h2
        · subst h1; exact processRecords_mem_mono t rest seen dlv r h _ hc
        · exact ih seen r h e h2
      · rw [processRecords_cons_new t d rest seen dlv hc] at h
        obtain ⟨r', hr'⟩ := processRecords_total t rest (d.rcept_no :: seen) dlv
        rw [hr'] at h
        simp only [Except.map] at h
        injection h with h
        subst h
        rcases List.mem_cons.mp he with h1 | h2
        · subst h1
          simpa using processRecords_mem_mono t rest _ dlv r' hr' _ (by simp)
        · simpa using ih (d.rcept_no :: seen) r' hr' e h2

theorem processRecords_all_seen (t : Int) (ds : List Disclosure) (seen : List String)
    (dlv : String → DeliverOutcome) (h : ∀ d ∈ ds, d.rcept_no ∈ seen) :
    processRecords t ds seen dlv = .ok ⟨seen, [], 0⟩ := by
  induction ds with
  | nil => rfl
  | cons d rest ih =>
      rw [processRecords_cons_old t d rest seen dlv (h d (by simp))]
      exact ih (fun e he => h e (by simp [he]))

theorem processRecords_dlv_irrel (t : Int) (ds : List Disclosure) (seen : List String)
    (dlv₁ dlv₂ : String → DeliverOutcome) :
    processRecords t ds seen dlv₁ = processRecords t ds seen dlv₂ := by
  induction ds generalizing seen with
  | nil => rfl
  | cons d rest ih =>
      by_cases hc : d.rcept_no ∈ seen
      · rw [processRecords_cons_old t d rest seen dlv₁ hc,
            processRecords_cons_old t d rest seen dlv₂ hc]
        exact ih seen
      · rw [processRecords_cons_new t d rest seen dlv₁ hc,
            processRecords_cons_new t d rest seen dlv₂ hc, ih (d.rcept_no :: seen)]

theorem check_eq_of_gate_false (t : Int) (f : FetchOutcome) (fs : FileState)
    (dlv : String → DeliverOutcome) (h : should_check_disclosures t = false) :
    check_new_disclosures t f fs dlv = .ok ⟨false, false, [], none, 0, fs⟩ := by
  simp [check_new_disclosures, h]

theorem check_eq_of_empty (t : Int) (f : FetchOutcome) (fs : FileState)
    (dlv : String → DeliverOutcome) (hg : should_check_disclosures t = true)
    (he : get_dart_disclosures f = []) :
    check_new_disclosures t f fs dlv = .ok ⟨true, false, [], none, 0, fs⟩ := by
  simp [check_new_disclosures, hg, he]

theorem check_eq_full (t : Int) (f : FetchOutcome) (fs : FileState)
    (dlv : String → DeliverOutcome) (seen : List String) (r : LoopResult)
    (hg : should_check_disclosures t = true)
    (hne : get_dart_disclosures f ≠ [])
    (hload : load_seen_disclosures fs = .ok seen)
    (hproc : processRecords t (get_dart_disclosures f) seen dlv = .ok r) :
    check_new_disclosures t f fs dlv =
      .ok ⟨true, true, r.sent, some r.seen, r.newCount, .stored r.seen⟩ := by
  simp [check_new_disclosures, hg, List.isEmpty_iff, hne, hload, hproc, except_bind_ok,
    save_seen_disclosures]

theorem check_eq_error_of_corrupt (t : Int) (f : FetchOutcome)
    (dlv : String → DeliverOutcome) (hg : should_check_disclosures t = true)
    (hne : get_dart_disclosures f ≠ []) :
    check_new_disclosures t f .corrupt dlv = .error .storeCorrupt := by
  simp [check_new_disclosures, hg, List.isEmpty_iff, hne, load_seen_disclosures,
    except_bind_error]

theorem containsSub_intro (a x b : String) : containsSub (a ++ x ++ b) x :=
  ⟨a.data, b.data, by simp [String.data_append]⟩

theorem containsSub_of_eq (big a x b : String) (h : big = a ++ x ++ b) :
    containsSub big x := h ▸ containsSub_intro a x b

/-- C1 counterexample: an HTTP 500 response carrying a record and a
successful status-"013" empty fetch are mapped by `get_dart_disclosures` to
the very same value, the empty list, so the upstream failure is not
distinguishable from a successful fetch returning zero records. -/
theorem get_dart_http500_cex :
    get_dart_disclosures (.http 500 ⟨"000", "server error", [sampleDisclosure]⟩) =
      get_dart_disclosures (.http 200 ⟨"013", "no data", []⟩) ∧
    get_dart_disclosures (.http 500 ⟨"000", "server error", [sampleDisclosure]⟩) = [] :=
  ⟨rfl, rfl⟩

/-- C1 amended: for every upstream failure of the fetch — a transport-level
failure/timeout, a non-200 HTTP status, or a registry status code other than
"000"/"013" — `get_dart_disclosures` catches or classifies the failure
internally and returns the plain empty list, the same value as a successful
fetch with zero records; no typed failure is surfaced to the poll cycle
controller. -/
theorem get_dart_failure_returns_empty (f : FetchOutcome)
    (h : f = .transportError ∨
         (∃ c d, f = .http c d ∧ c ≠ 200) ∨
         (∃ d, f = .http 200 d ∧ d.status ≠ "000" ∧ d.status ≠ "013")) :
    get_dart_disclosures f = [] := by
  rcases h with h | ⟨c, d, rfl, hc⟩ | ⟨d, rfl, h0, h13⟩
  · subst h; rfl
  · simp [get_dart_disclosures, hc]
  · simp [get_dart_disclosures, h0, h13]

/-- C1 witness: the amended statement evaluated at an HTTP 500 response. -/
theorem get_dart_failure_returns_empty_witness :
    get_dart_disclosures (.http 500 ⟨"000", "busy", [sampleDisclosure]⟩) = [] :=
  get_dart_failure_returns_empty _ (.inr (.inl ⟨500, _, rfl, by decide⟩))

/-- C2 counterexample: at Thursday 1970-01-01 09:00 KST the gate passes, the
fetch yields registry status "013" (EmptyResult), and the cycle returns
early with `saved = none`: `save_seen_disclosures` is never called, contrary
to the claim that every gate-passing, non-UpstreamError cycle persists. -/
theorem empty_result_skips_save_cex :
    should_check_disclosures 0 = true ∧
    check_new_disclosures 0 (.http 200 ⟨"013", "no data", []⟩) (.stored ["x"])
        alwaysDelivered =
      .ok ⟨true, false, [], none, 0, .stored ["x"]⟩ :=
  ⟨by decide, rfl⟩

/-- C2 amended: a gate-passing cycle reaches the persist step only when the
fetch produced a non-empty record list; on an empty list (EmptyResult,
zero-record success, or a silently-swallowed upstream failure) it returns
early without touching the store.  When records are present (even if every
one is already seen) the store is loaded and `save_seen_disclosures` is
called. -/
theorem persist_iff_nonempty_fetch (t : Int) (f : FetchOutcome) (fs : FileState)
    (dlv : String → DeliverOutcome) (hg : should_check_disclosures t = true) :
    (get_dart_disclosures f = [] →
      check_new_disclosures t f fs dlv = .ok ⟨true, false, [], none, 0, fs⟩) ∧
    (get_dart_disclosures f ≠ [] → fs ≠ .corrupt →
      ∃ r, check_new_disclosures t f fs dlv = .ok r ∧ r.saved.isSome = true) := by
  constructor
  · intro he
    exact check_eq_of_empty t f fs dlv hg he
  · intro hne hfs
    cases fs with
    | corrupt => exact absurd rfl hfs
    | absent =>
        obtain ⟨r, hr⟩ := processRecords_total t (get_dart_disclosures f) [] dlv
        exact ⟨_, check_eq_full t f .absent dlv [] r hg hne rfl hr, rfl⟩
    | stored l =>
        obtain ⟨r, hr⟩ := processRecords_total t (get_dart_disclosures f) l dlv
        exact ⟨_, check_eq_full t f (.stored l) dlv l r hg hne rfl hr, rfl⟩

/-- C2 witness: with one fetched record and an existing empty store the
cycle saves. -/
theorem persist_iff_nonempty_fetch_witness :
    ∃ r, check_new_disclosures 0 (.http 200 ⟨"000", "ok", [sampleDisclosure]⟩)
        (.stored []) alwaysDelivered = .ok r ∧ r.saved.isSome = true :=
  (persist_iff_nonempty_fetch 0 (.http 200 ⟨"000", "ok", [sampleDisclosure]⟩)
      (.stored []) alwaysDelivered (by decide)).2 (by decide) (by decide)

/-- C3 counterexample: a store file that exists and holds the well-formed
empty JSON list also loads as the empty set, so "returns the empty set
exactly when the file is absent" fails in the only-if direction. -/
theorem load_empty_stored_file_cex :
    load_seen_disclosures (.stored []) = .ok [] ∧ FileState.stored [] ≠ .absent :=
  ⟨rfl, by decide⟩

/-- C3 amended: `load_seen_disclosures` returns the empty set whenever the
file is absent; any other read failure (corrupt stored data) raises to the
caller and is never converted into an empty set; a present well-formed store
returns exactly its stored contents, which may themselves be empty. -/
theorem load_seen_disclosures_spec (fs : FileState) :
    (fs = .absent → load_seen_disclosures fs = .ok []) ∧
    (fs = .corrupt → load_seen_disclosures fs = .error .storeCorrupt) ∧
    (∀ l, fs = .stored l → load_seen_disclosures fs = .ok l) :=
  ⟨fun h => by rw [h]; rfl, fun h => by rw [h]; rfl, fun l h => by rw [h]; rfl⟩

/-- C3 witness: a corrupt store raises rather than loading as empty. -/
theorem load_seen_disclosures_spec_witness :
    load_seen_disclosures .corrupt = .error .storeCorrupt :=
  (load_seen_disclosures_spec .corrupt).2.1 rfl

/-- C4 counterexample: at a gate-passing time, with a fetch returning one
record and a corrupt store file, `load_seen_disclosures` raises inside the
cycle; neither `check_new_disclosures`, `schedule.run_pending()` nor the
`while True:` loop catches it, so the scheduler loop does not survive the
tick — a single cycle's failure terminates the process. -/
theorem scheduler_dies_on_corrupt_store_cex :
    scheduler_survives 0 (.http 200 ⟨"000", "ok", [sampleDisclosure]⟩) .corrupt
      alwaysDelivered = false := by decide

/-- C4 amended: fetch failures and delivery failures are contained within
their cycle (they are caught inside `get_dart_disclosures` and
`send_telegram_message`), so for every non-corrupt store state the scheduler
loop keeps ticking regardless of the fetch and delivery outcomes; only a
corrupt store file escapes the cycle and terminates the loop. -/
theorem scheduler_survives_unless_corrupt (t : Int) (f : FetchOutcome)
    (fs : FileState) (dlv : String → DeliverOutcome) (h : fs ≠ .corrupt) :
    scheduler_survives t f fs dlv = true := by
  unfold scheduler_survives scheduler_tick
  cases hg : should_check_disclosures t with
  | false => rw [check_eq_of_gate_false t f fs dlv hg]; rfl
  | true =>
      by_cases he : get_dart_disclosures f = []
      · rw [check_eq_of_empty t f fs dlv hg he]; rfl
      · cases fs with
        | corrupt => exact absurd rfl h
        | absent =>
            obtain ⟨r, hr⟩ := processRecords_total t (get_dart_disclosures f) [] dlv
            rw [check_eq_full t f .absent dlv [] r hg he rfl hr]; rfl
        | stored l =>
            obtain ⟨r, hr⟩ := processRecords_total t (get_dart_disclosures f) l dlv
            rw [check_eq_full t f (.stored l) dlv l r hg he rfl hr]; rfl

/-- C4 witness: the loop survives a transport-level fetch failure. -/
theorem scheduler_survives_unless_corrupt_witness :
    scheduler_survives 0 .transportError .absent alwaysDelivered = true :=
  scheduler_survives_unless_corrupt 0 .transportError .absent alwaysDelivered (by decide)

/-- C5: for every timestamp `t`, the polling gate `should_check_disclosures`
is true iff the UTC+9 weekday of `t` is Monday–Friday (weekday index < 5)
and the UTC+9 hour-of-day is in [8, 21]; and `is_business_day` is true iff
the UTC+9 weekday is Monday–Friday.  Both are fixed-offset arithmetic on the
timestamp, independent of any host timezone. -/
theorem should_check_disclosures_iff (t : Int) :
    (should_check_disclosures t = true ↔
      kstWeekday t < 5 ∧ 8 ≤ kstHour t ∧ kstHour t ≤ 21) ∧
    (is_business_day t = true ↔ kstWeekday t < 5) := by
  refine ⟨?_, by simp [is_business_day]⟩
  by_cases h1 : kstWeekday t < 5 <;>
    by_cases h2 : 8 ≤ kstHour t ∧ kstHour t ≤ 21 <;>
      simp [should_check_disclosures, is_business_hours, is_business_day, h1, h2]

/-- C6: for every record whose receipt date has 8 characters, the formatted
message contains the company name, the title, the receipt date re-sliced as
YYYY-MM-DD, the deep link `https://dart.fss.or.kr/dsaf001/main.do?rcpNo=`
followed by the receipt number, and the UTC+9 notification timestamp
rendered to second precision. -/
theorem format_message_contains (dis : Disclosure) (t : Int)
    (h8 : dis.rcept_dt.data.length = 8) :
    containsSub (format_disclosure_message dis t) dis.corp_name ∧
    containsSub (format_disclosure_message dis t) dis.report_nm ∧
    containsSub (format_disclosure_message dis t)
      (String.mk (dis.rcept_dt.data.take 4) ++ "-" ++
       String.mk ((dis.rcept_dt.data.drop 4).take 2) ++ "-" ++
       String.mk ((dis.rcept_dt.data.drop 6).take 2)) ∧
    containsSub (format_disclosure_message dis t)
      ("https://dart.fss.or.kr/dsaf001/main.do?rcpNo=" ++ dis.rcept_no) ∧
    containsSub (format_disclosure_message dis t) (kst_strftime t) := by
  refine ⟨?_, ?_, ?_, ?_, ?_⟩
  · refine containsSub_of_eq _ "🔔 <b>새로운 공시 발표!</b>\n\n📈 <b>" dis.corp_name
      ("</b>\n📋 " ++ dis.report_nm ++ "\n📅 " ++ formatted_date dis.rcept_dt ++
        "\n🔗 <a href=\"" ++ dart_link dis.rcept_no ++ "\">공시 내용 보기</a>\n\n⏰ " ++
        kst_strftime t ++ " (KST)") ?_
    apply String.ext
    simp [format_disclosure_message, String.data_append, List.append_assoc]
  · refine containsSub_of_eq _
      ("🔔 <b>새로운 공시 발표!</b>\n\n📈 <b>" ++ dis.corp_name ++ "</b>\n📋 ")
      dis.report_nm
      ("\n📅 " ++ formatted_date dis.rcept_dt ++
        "\n🔗 <a href=\"" ++ dart_link dis.rcept_no ++ "\">공시 내용 보기</a>\n\n⏰ " ++
        kst_strftime t ++ " (KST)") ?_
    apply String.ext
    simp [format_disclosure_message, String.data_append, List.append_assoc]
  · refine containsSub_of_eq _
      ("🔔 <b>새로운 공시 발표!</b>\n\n📈 <b>" ++ dis.corp_name ++ "</b>\n📋 " ++
        dis.report_nm ++ "\n📅 ")
      (formatted_date dis.rcept_dt)
      ("\n🔗 <a href=\"" ++ dart_link dis.rcept_no ++ "\">공시 내용 보기</a>\n\n⏰ " ++
        kst_strftime t ++ " (KST)") ?_
    apply String.ext
    simp [format_disclosure_message, formatted_date, String.data_append, List.append_assoc]
  · refine containsSub_of_eq _
      ("🔔 <b>새로운 공시 발표!</b>\n\n📈 <b>" ++ dis.corp_name ++ "</b>\n📋 " ++
        dis.report_nm ++ "\n📅 " ++ formatted_date dis.rcept_dt ++ "\n🔗 <a href=\"")
      (dart_link dis.rcept_no)
      ("\">공시 내용 보기</a>\n\n⏰ " ++ kst_strftime t ++ " (KST)") ?_
    apply String.ext
    simp [format_disclosure_message, dart_link, String.data_append, List.append_assoc]
  · refine containsSub_of_eq _
      ("🔔 <b>새로운 공시 발표!</b>\n\n📈 <b>" ++ dis.corp_name ++ "</b>\n📋 " ++
        dis.report_nm ++ "\n📅 " ++ formatted_date dis.rcept_dt ++
        "\n🔗 <a href=\"" ++ dart_link dis.rcept_no ++ "\">공시 내용 보기</a>\n\n⏰ ")
      (kst_strftime t) " (KST)" ?_
    apply String.ext
    simp [format_disclosure_message, String.data_append, List.append_assoc]

/-- C6 witness: for the sample record dated `20240815` the message contains
the reformatted date `2024-08-15` and the deep link for its receipt number. -/
theorem format_message_contains_witness :
    sampleDisclosure.rcept_dt.data.length = 8 ∧
    containsSub (format_disclosure_message sampleDisclosure 1723680000) "2024-08-15" ∧
    containsSub (format_disclosure_message sampleDisclosure 1723680000)
      ("https://dart.fss.or.kr/dsaf001/main.do?rcpNo=" ++ sampleDisclosure.rcept_no) :=
  ⟨by decide,
    (format_message_contains sampleDisclosure 1723680000 (by decide)).2.2.1,
    (format_message_contains sampleDisclosure 1723680000 (by decide)).2.2.2.1⟩

/-- C7: idempotence of the poll cycle — when a gate-passing cycle completes
without raising and its resulting file state is carried into a second cycle
run against the same fetch snapshot, the second cycle sends zero messages
and counts zero new records, whatever its timestamp and delivery outcomes. -/
theorem poll_cycle_idempotent (t₁ t₂ : Int) (f : FetchOutcome) (fs : FileState)
    (dlv₁ dlv₂ : String → DeliverOutcome) (r₁ : CycleResult)
    (hg : should_check_disclosures t₁ = true)
    (h₁ : check_new_disclosures t₁ f fs dlv₁ = .ok r₁) :
    Except.map (fun r => (r.sent, r.newCount))
      (check_new_disclosures t₂ f r₁.finalFile dlv₂) = .ok ([], 0) := by
  cases hg₂ : should_check_disclosures t₂ with
  | false => rw [check_eq_of_gate_false t₂ f r₁.finalFile dlv₂ hg₂]; rfl
  | true =>
      by_cases he : get_dart_disclosures f = []
      · rw [check_eq_of_empty t₂ f r₁.finalFile dlv₂ hg₂ he]; rfl
      · cases fs with
        | corrupt =>
            rw [check_eq_error_of_corrupt t₁ f dlv₁ hg he] at h₁
            simp at h₁
        | absent =>
            obtain ⟨lr, hlr⟩ := processRecords_total t₁ (get_dart_disclosures f) [] dlv₁
            rw [check_eq_full t₁ f .absent dlv₁ [] lr hg he rfl hlr] at h₁
            injection h₁ with h₁
            subst h₁
            have hall : ∀ d ∈ get_dart_disclosures f, d.rcept_no ∈ lr.seen :=
              processRecords_covers t₁ _ [] dlv₁ lr hlr
            rw [check_eq_full t₂ f (.stored lr.seen) dlv₂ lr.seen ⟨lr.seen, [], 0⟩ hg₂ he rfl
              (processRecords_all_seen t₂ _ lr.seen dlv₂ hall)]
            rfl
        | stored l =>
            obtain ⟨lr, hlr⟩ := processRecords_total t₁ (get_dart_disclosures f) l dlv₁
            rw [check_eq_full t₁ f (.stored l) dlv₁ l lr hg he rfl hlr] at h₁
            injection h₁ with h₁
            subst h₁
            have hall : ∀ d ∈ get_dart_disclosures f, d.rcept_no ∈ lr.seen :=
              processRecords_covers t₁ _ l dlv₁ lr hlr
            rw [check_eq_full t₂ f (.stored lr.seen) dlv₂ lr.seen ⟨lr.seen, [], 0⟩ hg₂ he rfl
              (processRecords_all_seen t₂ _ lr.seen dlv₂ hall)]
            rfl

/-- C7 witness: after a first cycle that notified the record with receipt
number "y" and saved `["y"]`, a second cycle on the same snapshot sends
nothing. -/
theorem poll_cycle_idempotent_witness :
    Except.map (fun r => (r.sent, r.newCount))
      (check_new_disclosures 0 (.http 200 ⟨"000", "ok", [⟨"회사", "보고서", "20240101", "y"⟩]⟩)
        (.stored ["y"]) alwaysDelivered) = .ok ([], 0) :=
  poll_cycle_idempotent 0 0 (.http 200 ⟨"000", "ok", [⟨"회사", "보고서", "20240101", "y"⟩]⟩)
    .absent alwaysDelivered alwaysDelivered
    ⟨true, true,
      [format_disclosure_message ⟨"회사", "보고서", "20240101", "y"⟩ 0], some ["y"], 1,
      .stored ["y"]⟩ (by decide) rfl

/-- C8: at every timestamp the time policy rejects, the poll cycle
terminates immediately as skipped-by-policy: no fetch is issued, the store
is neither read nor written, no message is sent, and the file state is left
unchanged. -/
theorem gate_false_no_effects (t : Int) (f : FetchOutcome) (fs : FileState)
    (dlv : String → DeliverOutcome) (h : should_check_disclosures t = false) :
    check_new_disclosures t f fs dlv = .ok ⟨false, false, [], none, 0, fs⟩ :=
  check_eq_of_gate_false t f fs dlv h

/-- C8 witness: Saturday 1970-01-03 10:00 KST (`t = 176400`) is rejected and
the cycle performs no fetch, no store access and no delivery. -/
theorem gate_false_no_effects_witness :
    should_check_disclosures 176400 = false ∧
    check_new_disclosures 176400 .transportError .absent alwaysDelivered =
      .ok ⟨false, false, [], none, 0, .absent⟩ :=
  ⟨by decide, gate_false_no_effects 176400 .transportError .absent alwaysDelivered (by decide)⟩

/-- C9: the seen-set grows monotonically — every receipt number present in
the store a cycle reads is still present in the file state the cycle leaves
behind, and whenever the cycle saves, the saved set is a superset of the
loaded one; no operation of the cycle ever removes a receipt number. -/
theorem seen_set_monotone (t : Int) (f : FetchOutcome) (fs : FileState)
    (dlv : String → DeliverOutcome) (r : CycleResult)
    (h : check_new_disclosures t f fs dlv = .ok r) :
    (∀ x, x ∈ storedReceipts fs → x ∈ storedReceipts r.finalFile) ∧
    (∀ s, r.saved = some s → ∀ x, x ∈ storedReceipts fs → x ∈ s) := by
  cases hg : should_check_disclosures t with
  | false =>
      rw [check_eq_of_gate_false t f fs dlv hg] at h
      injection h with h
      subst h
      exact ⟨fun x hx => hx, fun s hs => by cases hs⟩
  | true =>
      by_cases he : get_dart_disclosures f = []
      · rw [check_eq_of_empty t f fs dlv hg he] at h
        injection h with h
        subst h
        exact ⟨fun x hx => hx, fun s hs => by cases hs⟩
      · cases fs with
        | corrupt =>
            rw [check_eq_error_of_corrupt t f dlv hg he] at h
            simp at h
        | absent =>
            obtain ⟨lr, hlr⟩ := processRecords_total t (get_dart_disclosures f) [] dlv
            rw [check_eq_full t f .absent dlv [] lr hg he rfl hlr] at h
            injection h with h
            subst h
            exact ⟨fun x hx => absurd hx (List.not_mem_nil x),
              fun s hs x hx => absurd hx (List.not_mem_nil x)⟩
        | stored l =>
            obtain ⟨lr, hlr⟩ := processRecords_total t (get_dart_disclosures f) l dlv
            rw [check_eq_full t f (.stored l) dlv l lr hg he rfl hlr] at h
            injection h with h
            subst h
            refine ⟨fun x hx => ?_, fun s hs x hx => ?_⟩
            · exact processRecords_mem_mono t _ l dlv lr hlr x hx
            · injection hs with hs
              subst hs
              exact processRecords_mem_mono t _ l dlv lr hlr x hx

/-- C9 witness: a receipt number already stored ("x") survives a cycle whose
only fetched record is that same receipt number. -/
theorem seen_set_monotone_witness :
    "x" ∈ storedReceipts
      ((CycleResult.mk true true [] (some ["x"]) 0 (.stored ["x"])).finalFile) :=
  (seen_set_monotone 0 (.http 200 ⟨"000", "ok", [⟨"회사", "보고서", "20240101", "x"⟩]⟩)
      (.stored ["x"]) alwaysDelivered ⟨true, true, [], some ["x"], 0, .stored ["x"]⟩
      rfl).1 "x" (by decide)

/-- C10: `send_telegram_message` swallows every transport error and non-200
response (it never returns an error), the whole observable cycle result is
independent of the delivery outcomes, and whenever a cycle saves, every
fetched record's receipt number — delivered or not — is in the saved set:
records are marked seen regardless of delivery outcome (at-most-once
delivery). -/
theorem delivery_failure_still_marked_seen :
    (∀ o, ∃ l, send_telegram_message o = .ok l) ∧
    (∀ t f fs (dlv₁ dlv₂ : String → DeliverOutcome),
      check_new_disclosures t f fs dlv₁ = check_new_disclosures t f fs dlv₂) ∧
    (∀ t f fs dlv (r : CycleResult) s, check_new_disclosures t f fs dlv = .ok r →
      r.saved = some s → ∀ d ∈ get_dart_disclosures f, d.rcept_no ∈ s) := by
  refine ⟨send_telegram_message_isOk, ?_, ?_⟩
  · intro t f fs dlv₁ dlv₂
    cases hg : should_check_disclosures t with
    | false =>
        rw [check_eq_of_gate_false t f fs dlv₁ hg, check_eq_of_gate_false t f fs dlv₂ hg]
    | true =>
        by_cases he : get_dart_disclosures f = []
        · rw [check_eq_of_empty t f fs dlv₁ hg he, check_eq_of_empty t f fs dlv₂ hg he]
        · cases fs with
          | corrupt =>
              rw [check_eq_error_of_corrupt t f dlv₁ hg he,
                check_eq_error_of_corrupt t f dlv₂ hg he]
          | absent =>
              obtain ⟨r, hr⟩ := processRecords_total t (get_dart_disclosures f) [] dlv₁
              have hr₂ : processRecords t (get_dart_disclosures f) [] dlv₂ = .ok r :=
                (processRecords_dlv_irrel t (get_dart_disclosures f) [] dlv₂ dlv₁).trans hr
              rw [check_eq_full t f .absent dlv₁ [] r hg he rfl hr,
                check_eq_full t f .absent dlv₂ [] r hg he rfl hr₂]
          | stored l =>
              obtain ⟨r, hr⟩ := processRecords_total t (get_dart_disclosures f) l dlv₁
              have hr₂ : processRecords t (get_dart_disclosures f) l dlv₂ = .ok r :=
                (processRecords_dlv_irrel t (get_dart_disclosures f) l dlv₂ dlv₁).trans hr
              rw [check_eq_full t f (.stored l) dlv₁ l r hg he rfl hr,
                check_eq_full t f (.stored l) dlv₂ l r hg he rfl hr₂]
  · intro t f fs dlv r s h hs
    cases hg : should_check_disclosures t with
    | false =>
        rw [check_eq_of_gate_false t f fs dlv hg] at h
        injection h with h
        subst h
        cases hs
    | true =>
        by_cases he : get_dart_disclosures f = []
        · rw [check_eq_of_empty t f fs dlv hg he] at h
          injection h with h
          subst h
          cases hs
        · cases fs with
          | corrupt =>
              rw [check_eq_error_of_corrupt t f dlv hg he] at h
              simp at h
          | absent =>
              obtain ⟨lr, hlr⟩ := processRecords_total t (get_dart_disclosures f) [] dlv
              rw [check_eq_full t f .absent dlv [] lr hg he rfl hlr] at h
              injection h with h
              subst h
              injection hs with hs
              subst hs
              exact processRecords_covers t _ [] dlv lr hlr
          | stored l =>
              obtain ⟨lr, hlr⟩ := processRecords_total t (get_dart_disclosures f) l dlv
              rw [check_eq_full t f (.stored l) dlv l lr hg he rfl hlr] at h
              injection h with h
              subst h
              injection hs with hs
              subst hs
              exact processRecords_covers t _ l dlv lr hlr

/-- C10 witness: a cycle whose single delivery attempt hits a transport
error still saves the record's receipt number "y" as seen. -/
theorem delivery_failure_still_marked_seen_witness :
    (Disclosure.mk "회사" "보고서" "20240101" "y").rcept_no ∈ (["y"] : List String) :=
  delivery_failure_still_marked_seen.2.2 0
    (.http 200 ⟨"000", "ok", [⟨"회사", "보고서", "20240101", "y"⟩]⟩) .absent
    (fun _ => .transportError)
    ⟨true, true,
      [format_disclosure_message ⟨"회사", "보고서", "20240101", "y"⟩ 0], some ["y"], 1,
      .stored ["y"]⟩ ["y"] rfl rfl ⟨"회사", "보고서", "20240101", "y"⟩ (by decide)
